import Mathlib

/-!
# FarmEYE health-risk and drift-detection core: shallow embedding

This file embeds the algorithmic core of the FarmEYE repository in Lean 4 and
proves the specification claims about it.

Embedding conventions, chosen once and used throughout:

* JavaScript numbers are modelled as rationals (`ℚ`).  The only places where
  IEEE special values (`Infinity` / `NaN`) can arise in the embedded code are
  the two unguarded divisions of the herd-level engine
  (`src/lib/health-engine.ts`): `((current - baseline) / baseline) * 100` and
  `Math.abs(current - baseline) / speedStdDev`.  Those two expressions are
  modelled by `JSNum`, a rational extended with `NaN` and signed infinities,
  with division-by-zero and comparison behaviour exactly as in IEEE/JS
  (`x / 0 = +Infinity` for `x > 0`, `0 / 0 = NaN`, every ordered comparison
  against `NaN` is false).  All other arithmetic in the source is closed over
  the rationals (the personalized engine guards every division).
* Timestamps (`baselineStartDate`, "now") are rationals counting milliseconds,
  exactly the unit `Date.getTime()` uses; calendar dates of daily-deviation
  records are integers counting days.  Functions that read the wall clock in
  the source (`new Date()`) take the current time as an explicit argument.
* `Math.sqrt` is irrational-valued, hence not representable in `ℚ`; the one
  function that uses it (`standardDeviation`, feeding two statistics fields of
  the baseline record) is parameterized by an arbitrary `sqrt : ℚ → ℚ`.  No
  claim in this development depends on the numeric value of a standard
  deviation computed by `addBaselineDataPoint`, and every theorem about it is
  proved for every choice of `sqrt`.
* Identifier fields (`animalId`), wall-clock `timestamp` fields, and the
  display-only `description` strings of the herd engine are omitted from the
  embedded records: no claim mentions them.  The personalized engine's
  contributing-factor strings, the explanation strings, and the drift advisory
  messages ARE embedded, since claims C4 and C10 constrain them; the source's
  `toFixed(1)` formatting is embedded by `toFixed1`.
-/

/-! ## JS numeric semantics for the two unguarded divisions -/

/-- A JavaScript number as produced by the herd engine's division sites:
either a finite rational or one of the IEEE special values. -/
inductive JSNum where
  | nan : JSNum
  | posInf : JSNum
  | negInf : JSNum
  | fin : ℚ → JSNum
deriving DecidableEq, Repr

/-- `((c - b) / b) * 100` with JS semantics: when `b = 0` the division yields
`NaN` (for `c = 0`) or a signed infinity (sign of `c`), and multiplying by 100
preserves the special value. -/
def jsPct (c b : ℚ) : JSNum :=
  if b = 0 then
    (if c = 0 then .nan else if 0 < c then .posInf else .negInf)
  else .fin ((c - b) / b * 100)

/-- `n / d` with JS semantics for a nonnegative numerator `n` (the source only
divides `Math.abs(...)`, which is ≥ 0): `0 / 0 = NaN`, `n / 0 = +Infinity` for
`n > 0`. -/
def jsDivNonneg (n d : ℚ) : JSNum :=
  if d = 0 then (if n = 0 then .nan else .posInf) else .fin (n / d)

/-- JS `a <= q` for a finite right-hand side: false on `NaN` and `+Infinity`,
true on `-Infinity`. -/
def JSNum.jle (a : JSNum) (q : ℚ) : Bool :=
  match a with
  | .nan => false
  | .posInf => false
  | .negInf => true
  | .fin p => p ≤ q

/-- JS `a > q` for a finite right-hand side: false on `NaN` and `-Infinity`,
true on `+Infinity`. -/
def JSNum.jgt (a : JSNum) (q : ℚ) : Bool :=
  match a with
  | .nan => false
  | .posInf => true
  | .negInf => false
  | .fin p => q < p

/-! ## Data model (src/types) -/

/-- `HealthMetrics` (src/types): the fields the core reads.  `animalId`,
`timestamp` and the unused `speedDeviation` field are omitted. -/
structure HealthMetrics where
  activityLevel : ℚ
  visitFrequency24h : ℚ
  visitFrequency48h : ℚ
  averageSpeed : ℚ
deriving DecidableEq, Repr

/-- `HealthBaseline` (herd-level baseline, src/types). -/
structure HealthBaseline where
  avgActivityLevel : ℚ
  avgVisitFrequency : ℚ
  avgSpeed : ℚ
  speedStdDev : ℚ
deriving DecidableEq, Repr

inductive RiskLevel where
  | LOW : RiskLevel
  | MODERATE : RiskLevel
  | HIGH : RiskLevel
deriving DecidableEq, Repr

structure RiskSignals where
  activityDrop : Bool
  speedAnomaly : Bool
  visitReduction : Bool
deriving DecidableEq, Repr

/-- Herd-path `RiskAssessment` (`animalId`, `timestamp` and the display-only
`contributingFactors` strings omitted; no claim constrains them on this path). -/
structure RiskAssessment where
  riskLevel : RiskLevel
  riskScore : ℕ
  signals : RiskSignals
deriving DecidableEq, Repr

inductive BaselineStatus where
  | LEARNING : BaselineStatus
  | STABLE : BaselineStatus
deriving DecidableEq, Repr

/-- `AnimalBaseline` (per-subject learned baseline, src/types).
`baselineStartDate` is a timestamp in milliseconds. -/
structure AnimalBaseline where
  avgSpeed : ℚ
  avgVisitsPerDay : ℚ
  avgActivityLevel : ℚ
  speedStdDev : ℚ
  activityStdDev : ℚ
  baselineStartDate : ℚ
  baselineStatus : BaselineStatus
  dataPointsCollected : ℕ
  requiredDataPoints : ℕ
deriving DecidableEq, Repr

/-! ## Herd-level risk engine (src/lib/health-engine.ts) -/

/-- Result of one signal-scoring function of the herd engine: score and
active flag (`description` strings omitted). -/
structure SignalResult where
  score : ℕ
  isActive : Bool
deriving DecidableEq, Repr

/-- `calculateActivitySignal` (src/lib/health-engine.ts, lines 18-45). -/
def calculateActivitySignal (currentActivity baselineActivity : ℚ) : SignalResult :=
  let percentageChange := jsPct currentActivity baselineActivity
  if percentageChange.jle (-30) then ⟨40, true⟩
  else if percentageChange.jle (-15) then ⟨25, true⟩
  else if percentageChange.jle (-5) then ⟨10, false⟩
  else ⟨0, false⟩

/-- `calculateVisitSignal` (src/lib/health-engine.ts, lines 51-80). -/
def calculateVisitSignal (visits24h visits48h baselineVisits : ℚ) : SignalResult :=
  let percentageChange := jsPct visits24h baselineVisits
  let trend48h : Bool := visits48h < baselineVisits * 1.8
  if percentageChange.jle (-40) || trend48h then ⟨35, true⟩
  else if percentageChange.jle (-20) then ⟨20, true⟩
  else if percentageChange.jle (-10) then ⟨10, false⟩
  else ⟨0, false⟩

/-- `calculateSpeedSignal` (src/lib/health-engine.ts, lines 86-114).  The
division `Math.abs(currentSpeed - baselineSpeed) / speedStdDev` is unguarded
in the source, so it is modelled with JS division semantics. -/
def calculateSpeedSignal (currentSpeed baselineSpeed speedStdDev : ℚ) : SignalResult :=
  let deviation := jsDivNonneg |currentSpeed - baselineSpeed| speedStdDev
  if deviation.jgt 2.5 then ⟨25, true⟩
  else if deviation.jgt 1.5 then ⟨15, true⟩
  else if deviation.jgt 1 then ⟨5, false⟩
  else ⟨0, false⟩

/-- `calculateRiskLevel` (src/lib/health-engine.ts, lines 119-123). -/
def calculateRiskLevel (totalScore : ℕ) : RiskLevel :=
  if totalScore ≥ 66 then .HIGH
  else if totalScore ≥ 31 then .MODERATE
  else .LOW

/-- `calculateHealthRisk` (src/lib/health-engine.ts, lines 129-183). -/
def calculateHealthRisk (currentMetrics : HealthMetrics) (baseline : HealthBaseline) :
    RiskAssessment :=
  let activitySignal := calculateActivitySignal currentMetrics.activityLevel
      baseline.avgActivityLevel
  let visitSignal := calculateVisitSignal currentMetrics.visitFrequency24h
      currentMetrics.visitFrequency48h baseline.avgVisitFrequency
  let speedSignal := calculateSpeedSignal currentMetrics.averageSpeed
      baseline.avgSpeed baseline.speedStdDev
  let totalScore := activitySignal.score + visitSignal.score + speedSignal.score
  { riskLevel := calculateRiskLevel totalScore
    riskScore := totalScore
    signals :=
      { activityDrop := activitySignal.isActive
        speedAnomaly := speedSignal.isActive
        visitReduction := visitSignal.isActive } }

/-! ## Baseline learner (baseline-learning module, in src/components/StatCard.tsx) -/

/-- `BASELINE_CONFIG.MIN_DATA_POINTS`. -/
def MIN_DATA_POINTS : ℕ := 20

/-- `BASELINE_CONFIG.MIN_DAYS`. -/
def MIN_DAYS : ℕ := 7

/-- Milliseconds in a day, the divisor `1000 * 60 * 60 * 24` of `getDaysBetween`. -/
def msPerDay : ℚ := 1000 * 60 * 60 * 24

/-- `mean` (baseline-learning module): `0` on the empty list, else sum / length. -/
def mean (values : List ℚ) : ℚ :=
  if values.length = 0 then 0 else values.sum / values.length

/-- `standardDeviation` (baseline-learning module): `0` for fewer than 2 values,
else `sqrt` of the mean squared difference from the mean.  `Math.sqrt` is
abstracted as the parameter `sqrt` (see the file header). -/
def standardDeviation (sqrt : ℚ → ℚ) (values : List ℚ) : ℚ :=
  if values.length < 2 then 0
  else sqrt (mean (values.map (fun value => (value - mean values) ^ 2)))

/-- `getDaysBetween` (baseline-learning module): ceiling of the absolute
millisecond difference divided by one day. -/
def getDaysBetween (startDate endDate : ℚ) : ℤ :=
  ⌈|endDate - startDate| / msPerDay⌉

/-- `addBaselineDataPoint` (baseline-learning module, lines 95-132): no-op once
STABLE; otherwise records the history length, recomputes the statistics from
the full history when it has at least 2 points, and transitions to STABLE when
the history has ≥ `MIN_DATA_POINTS` entries and `getDaysBetween` of the start
date and now is ≥ `MIN_DAYS`.  `now` is the wall-clock time the source obtains
from `new Date()`. -/
def addBaselineDataPoint (sqrt : ℚ → ℚ) (baseline : AnimalBaseline)
    (dataPoints : List HealthMetrics) (now : ℚ) : AnimalBaseline :=
  if baseline.baselineStatus = .STABLE then baseline
  else
    let b1 := { baseline with dataPointsCollected := dataPoints.length }
    if dataPoints.length < 2 then b1
    else
      let b2 := { b1 with
        avgSpeed := mean (dataPoints.map (·.averageSpeed))
        avgVisitsPerDay := mean (dataPoints.map (·.visitFrequency24h))
        avgActivityLevel := mean (dataPoints.map (·.activityLevel))
        speedStdDev := standardDeviation sqrt (dataPoints.map (·.averageSpeed))
        activityStdDev := standardDeviation sqrt (dataPoints.map (·.activityLevel)) }
      if dataPoints.length ≥ MIN_DATA_POINTS ∧
          getDaysBetween baseline.baselineStartDate now ≥ (MIN_DAYS : ℤ) then
        { b2 with baselineStatus := .STABLE }
      else b2

/-- `calculateLearningProgress` (baseline-learning module, lines 148-157).
`now` replaces the source's `new Date()`.  (In JS, `dataProgress` would be
`Infinity`/`NaN` if `requiredDataPoints` were 0 — a state the code never
constructs, since `initializeBaseline` always sets 20; rational division by
zero yields 0 here.) -/
def calculateLearningProgress (baseline : AnimalBaseline) (now : ℚ) : ℚ :=
  if baseline.baselineStatus = .STABLE then 1
  else
    let dataProgress : ℚ := (baseline.dataPointsCollected : ℚ) / (baseline.requiredDataPoints : ℚ)
    let timeProgress : ℚ := (getDaysBetween baseline.baselineStartDate now : ℚ) / (MIN_DAYS : ℚ)
    min dataProgress (min timeProgress 1)

/-- `isBaselineReady` (baseline-learning module). -/
def isBaselineReady (baseline : AnimalBaseline) : Bool :=
  baseline.baselineStatus = .STABLE

/-- `calculateDeviation` (baseline-learning module): percent deviation with an
explicit divide-by-zero guard returning 0. -/
def calculateDeviation (current baseline : ℚ) : ℚ :=
  if baseline = 0 then 0 else (current - baseline) / baseline * 100

/-! ## String formatting used by the personalized engine -/

/-- JS `Number.prototype.toFixed(1)` for a nonnegative rational (every call
site formats an absolute value or a z-score): round `q * 10` to the nearest
integer, ties upward, and print with one decimal digit. -/
def toFixed1 (q : ℚ) : String :=
  let n : ℤ := ⌊q * 10 + 1 / 2⌋
  toString (n / 10) ++ "." ++ toString (n % 10)

/-! ## Personalized risk engine (src/unnamed/part_006) -/

inductive DriftState where
  | STABLE : DriftState
  | EARLY_DRIFT : DriftState
  | ACTION_REQUIRED : DriftState
deriving DecidableEq, Repr

/-- One signal of the personalized engine: score, description, active flag
(the source computes these in three mutable locals per signal). -/
structure PersSignal where
  score : ℕ
  description : String
  isActive : Bool
deriving DecidableEq, Repr

/-- The activity branch of `calculatePersonalizedHealthRisk`
(src/unnamed/part_006, lines 293-309): thresholds on the percent deviation. -/
def persActivitySignal (activityDeviation : ℚ) : PersSignal :=
  if activityDeviation ≤ -30 then
    ⟨40, "Activity " ++ toFixed1 |activityDeviation| ++ "% below personal baseline", true⟩
  else if activityDeviation ≤ -15 then
    ⟨25, "Activity " ++ toFixed1 |activityDeviation| ++ "% below personal baseline", true⟩
  else if activityDeviation ≤ -5 then
    ⟨10, "Slight activity reduction from personal baseline", false⟩
  else ⟨0, "Activity normal for this animal", false⟩

/-- The visit branch of `calculatePersonalizedHealthRisk`
(src/unnamed/part_006, lines 311-327): thresholds on the 24h percent
deviation only — the personalized path has no 48h check. -/
def persVisitSignal (visitDeviation : ℚ) : PersSignal :=
  if visitDeviation ≤ -40 then
    ⟨35, "Visits " ++ toFixed1 |visitDeviation| ++ "% below personal baseline", true⟩
  else if visitDeviation ≤ -20 then
    ⟨20, "Visits " ++ toFixed1 |visitDeviation| ++ "% below personal baseline", true⟩
  else if visitDeviation ≤ -10 then
    ⟨10, "Minor decrease in visits from personal baseline", false⟩
  else ⟨0, "Corridor visits normal for this animal", false⟩

/-- The z-score of the personalized speed branch (src/unnamed/part_006,
lines 329-332): guarded so that a zero (or negative) standard deviation gives
z = 0. -/
def personalSpeedZ (speedDeviation stdDev : ℚ) : ℚ :=
  if stdDev > 0 then |speedDeviation| / (stdDev * 100) else 0

/-- The speed branch of `calculatePersonalizedHealthRisk`
(src/unnamed/part_006, lines 334-350): thresholds on the z-score.  The "Ïƒ"
in the first description is the literal (mojibake) text of the source. -/
def persSpeedSignal (speedZScore : ℚ) : PersSignal :=
  if speedZScore > 2.5 then
    ⟨25, "Significant speed anomaly (" ++ toFixed1 speedZScore ++ "Ïƒ from personal baseline)", true⟩
  else if speedZScore > 1.5 then
    ⟨15, "Moderate speed deviation from personal baseline", true⟩
  else if speedZScore > 1 then
    ⟨5, "Minor speed variation from personal baseline", false⟩
  else ⟨0, "Speed normal for this animal", false⟩

/-! ## Explainable Health Intelligence (src/lib/explainable-health.ts) -/

inductive ConfidenceLevel where
  | LOW : ConfidenceLevel
  | MEDIUM : ConfidenceLevel
  | HIGH : ConfidenceLevel
deriving DecidableEq, Repr

/-- `SignalContributor` (src/types): name, point impact, detail line. -/
structure SignalContributor where
  signal : String
  impact : ℕ
  detail : String
deriving DecidableEq, Repr

/-- `HealthExplanation` (src/types). -/
structure HealthExplanation where
  healthScore : ℤ
  contributors : List SignalContributor
  confidenceLevel : ConfidenceLevel
  consistencyDays : ℚ
  baselineReference : String
  recommendation : String
deriving DecidableEq, Repr

/-- `PersonalizedRiskAssessment` (src/types): the herd fields plus the
personalization fields.  `learningProgress` and `explanation` are optional in
the source (each is set on only one branch of the engine). -/
structure PersonalizedRiskAssessment where
  riskLevel : RiskLevel
  riskScore : ℕ
  signals : RiskSignals
  contributingFactors : List String
  baselineUsed : Bool
  deviationScore : ℚ
  baselineStatus : BaselineStatus
  learningProgress : Option ℚ
  explanation : Option HealthExplanation
deriving DecidableEq, Repr

/-- `calculateActivityImpact` (src/lib/explainable-health.ts, lines 23-29). -/
def calculateActivityImpact (deviationPct : ℚ) : ℕ :=
  if |deviationPct| ≥ 30 then 40
  else if |deviationPct| ≥ 15 then 25
  else if |deviationPct| ≥ 5 then 10
  else 0

/-- `calculateVisitImpact` (src/lib/explainable-health.ts, lines 34-40). -/
def calculateVisitImpact (deviationPct : ℚ) : ℕ :=
  if |deviationPct| ≥ 40 then 35
  else if |deviationPct| ≥ 20 then 20
  else if |deviationPct| ≥ 10 then 10
  else 0

/-- `calculateSpeedImpact` (src/lib/explainable-health.ts, lines 45-53): the
guard here is `stdDev === 0` (not `> 0` as in the engine). -/
def calculateSpeedImpact (deviationPct stdDev : ℚ) : ℕ :=
  if stdDev = 0 then 0
  else
    let zScore := |deviationPct| / (stdDev * 100)
    if zScore > 2.5 then 25
    else if zScore > 1.5 then 15
    else if zScore > 1 then 5
    else 0

/-- Stable insertion step for sorting contributors by impact descending:
the source sorts with the comparator `(a, b) => b.impact - a.impact` and JS
`Array.prototype.sort` is stable. -/
def insertImpactDesc (e : SignalContributor) :
    List SignalContributor → List SignalContributor
  | [] => [e]
  | h :: t => if h.impact > e.impact then h :: insertImpactDesc e t else e :: h :: t

/-- Stable sort of contributors by impact, descending. -/
def sortImpactDesc (l : List SignalContributor) : List SignalContributor :=
  l.foldr insertImpactDesc []

/-- `buildContributorBreakdown` (src/lib/explainable-health.ts, lines 58-122):
one contributor per active signal with positive recomputed impact, sorted by
impact descending. -/
def buildContributorBreakdown (assessment : PersonalizedRiskAssessment)
    (currentMetrics : HealthMetrics) (baseline : AnimalBaseline) :
    List SignalContributor :=
  let activityPart : List SignalContributor :=
    if assessment.signals.activityDrop then
      let deviation := calculateDeviation currentMetrics.activityLevel baseline.avgActivityLevel
      let impact := calculateActivityImpact deviation
      if impact > 0 then
        [⟨"Low Activity", impact,
          "Activity " ++ toFixed1 |deviation| ++ "% below personal baseline"⟩]
      else []
    else []
  let visitPart : List SignalContributor :=
    if assessment.signals.visitReduction then
      let deviation := calculateDeviation currentMetrics.visitFrequency24h baseline.avgVisitsPerDay
      let impact := calculateVisitImpact deviation
      if impact > 0 then
        [⟨"Reduced Visits", impact,
          "Visits " ++ toFixed1 |deviation| ++ "% below personal baseline"⟩]
      else []
    else []
  let speedPart : List SignalContributor :=
    if assessment.signals.speedAnomaly then
      let deviation := calculateDeviation currentMetrics.averageSpeed baseline.avgSpeed
      let impact := calculateSpeedImpact deviation baseline.speedStdDev
      if impact > 0 then
        let zScore := if baseline.speedStdDev > 0
          then |deviation| / (baseline.speedStdDev * 100) else 0
        [⟨"Slower Speed", impact,
          "Speed " ++ toFixed1 |deviation| ++ "% below personal baseline ("
            ++ toFixed1 zScore ++ "σ deviation)"⟩]
      else []
    else []
  sortImpactDesc (activityPart ++ visitPart ++ speedPart)

/-- `calculateConfidence` (src/lib/explainable-health.ts, lines 127-147). -/
def calculateConfidence (consistencyDays : ℚ) (baselineStatus : BaselineStatus)
    (signalCount : ℕ) : ConfidenceLevel :=
  if baselineStatus ≠ .STABLE then .LOW
  else if consistencyDays ≥ 5 ∧ signalCount ≥ 2 then .HIGH
  else if consistencyDays ≥ 3 ∨ signalCount ≥ 2 then .MEDIUM
  else .LOW

/-- `generateRecommendation` (src/lib/explainable-health.ts, lines 152-188). -/
def generateRecommendation (riskLevel : RiskLevel) (driftState : DriftState)
    (confidenceLevel : ConfidenceLevel) (contributorCount : ℕ) : String :=
  if riskLevel = .HIGH then
    if contributorCount ≥ 2 then
      "Immediate veterinary consultation recommended. Multiple concerning health signals detected with consistent pattern."
    else
      "Immediate veterinary consultation recommended. Significant health concern detected."
  else if riskLevel = .MODERATE then
    if confidenceLevel = .HIGH then
      "Schedule veterinary check-up within 24-48 hours. Pattern is consistent and reliable over multiple days."
    else if confidenceLevel = .MEDIUM then
      "Consider scheduling veterinary check-up. Monitor closely for next 1-2 days."
    else
      "Monitor closely. If pattern continues for 2-3 more days, schedule veterinary consultation."
  else if driftState = .EARLY_DRIFT then
    "Early warning detected: Consider preventive health check-up. Small behavioral changes observed over multiple days."
  else if driftState = .ACTION_REQUIRED then
    "Sustained behavioral drift detected over several days. Preventive veterinary consultation advised to rule out early-stage issues."
  else
    "Continue normal monitoring. All health indicators are within expected range for this animal."

/-- `generateHealthExplanation` (src/lib/explainable-health.ts, lines 193-234). -/
def generateHealthExplanation (assessment : PersonalizedRiskAssessment)
    (currentMetrics : HealthMetrics) (baseline : AnimalBaseline)
    (consistencyDays : ℚ) (driftState : DriftState) : HealthExplanation :=
  let contributors := buildContributorBreakdown assessment currentMetrics baseline
  let confidenceLevel := calculateConfidence consistencyDays assessment.baselineStatus
      contributors.length
  let recommendation := generateRecommendation assessment.riskLevel driftState
      confidenceLevel contributors.length
  let baselineReference := if assessment.baselineUsed then
      "Personal baseline (learned from this animal\x27s behavior over 7-14 days)"
    else "Herd-level baseline (global average)"
  { healthScore := 100 - (assessment.riskScore : ℤ)
    contributors := contributors
    confidenceLevel := confidenceLevel
    consistencyDays := consistencyDays
    baselineReference := baselineReference
    recommendation := recommendation }

/-- `calculatePersonalizedHealthRisk` (src/unnamed/part_006, lines 194-344).
`now` replaces the source's `new Date()` (used only for the learning-progress
figure of the LEARNING branch). -/
def calculatePersonalizedHealthRisk (currentMetrics : HealthMetrics)
    (personalBaseline : AnimalBaseline) (now : ℚ)
    (consistencyDays : ℚ) (driftState : DriftState) : PersonalizedRiskAssessment :=
  if ¬ isBaselineReady personalBaseline then
    { riskLevel := .LOW
      riskScore := 0
      signals := { activityDrop := false, speedAnomaly := false, visitReduction := false }
      contributingFactors :=
        ["Baseline learning in progress - health monitoring will activate once stable"]
      baselineUsed := false
      deviationScore := 0
      baselineStatus := .LEARNING
      learningProgress := some (calculateLearningProgress personalBaseline now)
      explanation := none }
  else
    let activityDeviation := calculateDeviation currentMetrics.activityLevel
        personalBaseline.avgActivityLevel
    let visitDeviation := calculateDeviation currentMetrics.visitFrequency24h
        personalBaseline.avgVisitsPerDay
    let speedDeviation := calculateDeviation currentMetrics.averageSpeed
        personalBaseline.avgSpeed
    let activitySignal := persActivitySignal activityDeviation
    let visitSignal := persVisitSignal visitDeviation
    let speedZScore := personalSpeedZ speedDeviation personalBaseline.speedStdDev
    let speedSignal := persSpeedSignal speedZScore
    let totalScore := activitySignal.score + visitSignal.score + speedSignal.score
    let riskLevel := calculateRiskLevel totalScore
    let signals : RiskSignals :=
      { activityDrop := activitySignal.isActive
        speedAnomaly := speedSignal.isActive
        visitReduction := visitSignal.isActive }
    let factors : List String :=
      (if activitySignal.isActive then [activitySignal.description] else []) ++
      (if visitSignal.isActive then [visitSignal.description] else []) ++
      (if speedSignal.isActive then [speedSignal.description] else [])
    let contributingFactors :=
      if factors.length = 0 then ["All health indicators within personal normal range"]
      else factors
    let avgDeviation := (|activityDeviation| + |visitDeviation| + |speedDeviation|) / 3
    let assessment : PersonalizedRiskAssessment :=
      { riskLevel := riskLevel
        riskScore := totalScore
        signals := signals
        contributingFactors := contributingFactors
        baselineUsed := true
        deviationScore := avgDeviation
        baselineStatus := .STABLE
        learningProgress := none
        explanation := none }
    { assessment with
        explanation := some (generateHealthExplanation assessment currentMetrics
          personalBaseline consistencyDays driftState) }

/-! ## Drift detection (src/lib/drift-detection.ts) -/

/-- `DRIFT_CONFIG.ROLLING_WINDOW_DAYS`. -/
def ROLLING_WINDOW_DAYS : ℤ := 7

/-- `DRIFT_CONFIG.MIN_DEVIATION_PCT`. -/
def MIN_DEVIATION_PCT : ℚ := 5

/-- `DRIFT_CONFIG.MAX_DEVIATION_PCT`. -/
def MAX_DEVIATION_PCT : ℚ := 15

/-- `DRIFT_CONFIG.CONSECUTIVE_DAYS`. -/
def CONSECUTIVE_DAYS : ℕ := 3

/-- `DRIFT_CONFIG.MIN_SIGNALS`. -/
def MIN_SIGNALS : ℕ := 2

/-- `DRIFT_CONFIG.ACTION_THRESHOLD_DAYS`. -/
def ACTION_THRESHOLD_DAYS : ℕ := 5

/-- `DailyDeviation` (src/types): calendar date (epoch days here), the three
percent deltas, and the flag count. -/
structure DailyDeviation where
  date : ℤ
  activityDeltaPct : ℚ
  speedDeltaPct : ℚ
  visitDeltaPct : ℚ
  flagCount : ℕ
deriving DecidableEq, Repr

/-- `EarlyWarningAssessment` (src/types); `animalId` omitted. -/
structure EarlyWarningAssessment where
  driftState : DriftState
  consecutiveDaysWithDrift : ℕ
  recentDeviations : List DailyDeviation
  triggeredSignals : List String
  earlyWarningMessage : Option String
deriving DecidableEq, Repr

/-- `calculateDailyDeviation` (src/lib/drift-detection.ts, lines 22-68).
`today` replaces the source's `new Date()` date string. -/
def calculateDailyDeviation (currentMetrics : HealthMetrics)
    (baseline : AnimalBaseline) (today : ℤ) : DailyDeviation :=
  let activityDelta := calculateDeviation currentMetrics.activityLevel
      baseline.avgActivityLevel
  let speedDelta := calculateDeviation currentMetrics.averageSpeed baseline.avgSpeed
  let visitDelta := calculateDeviation currentMetrics.visitFrequency24h
      baseline.avgVisitsPerDay
  let flagCount :=
    (if |activityDelta| ≥ MIN_DEVIATION_PCT ∧ |activityDelta| ≤ MAX_DEVIATION_PCT
      then 1 else 0) +
    (if |speedDelta| ≥ MIN_DEVIATION_PCT ∧ |speedDelta| ≤ MAX_DEVIATION_PCT
      then 1 else 0) +
    (if |visitDelta| ≥ MIN_DEVIATION_PCT ∧ |visitDelta| ≤ MAX_DEVIATION_PCT
      then 1 else 0)
  { date := today
    activityDeltaPct := activityDelta
    speedDeltaPct := speedDelta
    visitDeltaPct := visitDelta
    flagCount := flagCount }

/-- Stable insertion step for sorting deviations by date descending (the
source sorts with `(a, b) => dateOf b - dateOf a`; JS sort is stable). -/
def insertDateDesc (e : DailyDeviation) : List DailyDeviation → List DailyDeviation
  | [] => [e]
  | h :: t => if h.date > e.date then h :: insertDateDesc e t else e :: h :: t

/-- Stable sort of deviations by date, descending (most recent first). -/
def sortDateDesc (l : List DailyDeviation) : List DailyDeviation :=
  l.foldr insertDateDesc []

/-- `filterToRollingWindow` (src/lib/drift-detection.ts, lines 73-83): keep the
entries dated within the last `windowDays` days of `now`, newest first. -/
def filterToRollingWindow (now : ℤ) (allDeviations : List DailyDeviation)
    (windowDays : ℤ := ROLLING_WINDOW_DAYS) : List DailyDeviation :=
  sortDateDesc (allDeviations.filter (fun d => now - windowDays ≤ d.date))

/-- Whether a day counts as a drift day: `flagCount >= DRIFT_CONFIG.MIN_SIGNALS`. -/
def isDriftDay (d : DailyDeviation) : Bool :=
  d.flagCount ≥ MIN_SIGNALS

/-- The signal names of one counted day, in the order the loop body of
`detectConsecutiveDrift` adds them to its `Set` (activity, speed, visits;
insertion-ordered, first insertion wins). -/
def addDaySignals (d : DailyDeviation) (acc : List String) : List String :=
  let addOne := fun (name : String) (a : List String) =>
    if name ∈ a then a else a ++ [name]
  let a1 := if |d.activityDeltaPct| ≥ MIN_DEVIATION_PCT then addOne "activity" acc else acc
  let a2 := if |d.speedDeltaPct| ≥ MIN_DEVIATION_PCT then addOne "speed" a1 else a1
  if |d.visitDeltaPct| ≥ MIN_DEVIATION_PCT then addOne "visits" a2 else a2

/-- The `for ... break` loop of `detectConsecutiveDrift`: walk the sorted
list, counting days and accumulating triggered signals, and stop at the first
day whose flag count is below `MIN_SIGNALS`. -/
def driftScan (acc : List String) (n : ℕ) : List DailyDeviation → ℕ × List String
  | [] => (n, acc)
  | d :: rest =>
      if isDriftDay d then driftScan (addDaySignals d acc) (n + 1) rest
      else (n, acc)

/-- `detectConsecutiveDrift` (src/lib/drift-detection.ts, lines 88-130). -/
def detectConsecutiveDrift (deviations : List DailyDeviation) :
    Bool × ℕ × List String :=
  let sorted := sortDateDesc deviations
  let scan := driftScan [] 0 sorted
  (scan.1 ≥ CONSECUTIVE_DAYS, scan.1, scan.2)

/-- `calculateDriftState` (src/lib/drift-detection.ts, lines 135-151). -/
def calculateDriftState (consecutiveDays : ℕ) (maxDeviation : ℚ) : DriftState :=
  if consecutiveDays ≥ ACTION_THRESHOLD_DAYS ∨ maxDeviation > MAX_DEVIATION_PCT then
    .ACTION_REQUIRED
  else if consecutiveDays ≥ CONSECUTIVE_DAYS then .EARLY_DRIFT
  else .STABLE

/-- `generateEarlyWarningMessage` (src/lib/drift-detection.ts, lines 156-173). -/
def generateEarlyWarningMessage (driftState : DriftState) (consecutiveDays : ℕ)
    (triggeredSignals : List String) : Option String :=
  match driftState with
  | .STABLE => none
  | .EARLY_DRIFT =>
      some ("Micro-deviations detected for " ++ toString consecutiveDays ++
        " consecutive days in: " ++ String.intercalate ", " triggeredSignals ++
        ". Consider preventive check-up.")
  | .ACTION_REQUIRED =>
      some ("Sustained behavioral drift over " ++ toString consecutiveDays ++
        " days in: " ++ String.intercalate ", " triggeredSignals ++
        ". Veterinary consultation recommended.")

/-- The per-day maximum absolute deviation
`Math.max(|activity|, |speed|, |visit|)` of one windowed entry. -/
def dayMaxDeviation (d : DailyDeviation) : ℚ :=
  max (max |d.activityDeltaPct| |d.speedDeltaPct|) |d.visitDeltaPct|

/-- `generateEarlyWarningAssessment` (src/lib/drift-detection.ts,
lines 178-220).  `now` replaces the source's `new Date()` window cutoff. -/
def generateEarlyWarningAssessment (now : ℤ)
    (recentDeviations : List DailyDeviation) : EarlyWarningAssessment :=
  let windowDeviations := filterToRollingWindow now recentDeviations
  let detected := detectConsecutiveDrift windowDeviations
  let consecutiveDays := detected.2.1
  let triggeredSignals := detected.2.2
  let maxDeviation : ℚ :=
    match windowDeviations.map dayMaxDeviation with
    | [] => 0
    | x :: xs => xs.foldl max x
  let driftState := calculateDriftState consecutiveDays maxDeviation
  { driftState := driftState
    consecutiveDaysWithDrift := consecutiveDays
    recentDeviations := windowDeviations
    triggeredSignals := triggeredSignals
    earlyWarningMessage :=
      generateEarlyWarningMessage driftState consecutiveDays triggeredSignals }

/-- Total impact of the contributors listed in an assessment's attached
explanation (0 when no explanation is attached). -/
def explanationImpactSum (P : PersonalizedRiskAssessment) : ℕ :=
  match P.explanation with
  | none => 0
  | some e => (e.contributors.map SignalContributor.impact).sum

/-! ## Helper lemmas -/

/-- The drift-scan loop counts exactly the qualifying prefix of its input. -/
theorem driftScan_fst (l : List DailyDeviation) :
    ∀ acc n, (driftScan acc n l).1 = n + (l.takeWhile isDriftDay).length := by
  induction l with
  | nil => intro acc n; simp [driftScan]
  | cons d rest ih =>
      intro acc n
      by_cases h : isDriftDay d
      · simp [driftScan, h, List.takeWhile_cons, ih]
        omega
      · simp [driftScan, h, List.takeWhile_cons]

theorem mem_insertDateDesc {b e : DailyDeviation} {l : List DailyDeviation} :
    b ∈ insertDateDesc e l ↔ b = e ∨ b ∈ l := by
  induction l with
  | nil => simp [insertDateDesc]
  | cons h t ih =>
      by_cases hc : h.date > e.date
      · simp only [insertDateDesc, if_pos hc, List.mem_cons, ih]
        tauto
      · simp only [insertDateDesc, if_neg hc, List.mem_cons]

/-- Inserting into a date-descending list keeps it date-descending. -/
theorem insertDateDesc_pairwise {e : DailyDeviation} {l : List DailyDeviation}
    (hl : l.Pairwise (fun a b => b.date ≤ a.date)) :
    (insertDateDesc e l).Pairwise (fun a b => b.date ≤ a.date) := by
  induction l with
  | nil => simp [insertDateDesc]
  | cons h t ih =>
      rw [List.pairwise_cons] at hl
      by_cases hc : h.date > e.date
      · rw [insertDateDesc, if_pos hc, List.pairwise_cons]
        refine ⟨?_, ih hl.2⟩
        intro b hb
        rcases mem_insertDateDesc.mp hb with hbe | hbt
        · exact hbe ▸ le_of_lt hc
        · exact hl.1 b hbt
      · rw [insertDateDesc, if_neg hc, List.pairwise_cons]
        refine ⟨?_, List.pairwise_cons.mpr hl⟩
        intro b hb
        rcases List.mem_cons.mp hb with hbe | hbt
        · exact hbe ▸ not_lt.mp hc
        · exact le_trans (hl.1 b hbt) (not_lt.mp hc)

/-- The output of `sortDateDesc` is date-descending. -/
theorem sortDateDesc_pairwise (l : List DailyDeviation) :
    (sortDateDesc l).Pairwise (fun a b => b.date ≤ a.date) := by
  induction l with
  | nil => simp [sortDateDesc]
  | cons h t ih => exact insertDateDesc_pairwise ih

/-- Sorting a list that is already date-descending leaves it unchanged. -/
theorem sortDateDesc_eq_self {l : List DailyDeviation}
    (hl : l.Pairwise (fun a b => b.date ≤ a.date)) : sortDateDesc l = l := by
  induction l with
  | nil => rfl
  | cons h t ih =>
      rw [List.pairwise_cons] at hl
      show insertDateDesc h (sortDateDesc t) = h :: t
      rw [ih hl.2]
      cases t with
      | nil => rfl
      | cons h1 t1 =>
          have hle : ¬ (h1.date > h.date) :=
            not_lt.mpr (hl.1 h1 (List.mem_cons_self h1 t1))
          rw [insertDateDesc, if_neg hle]

/-- Sorting by date is idempotent. -/
theorem sortDateDesc_idem (l : List DailyDeviation) :
    sortDateDesc (sortDateDesc l) = sortDateDesc l :=
  sortDateDesc_eq_self (sortDateDesc_pairwise l)

/-- A bound `c` is exceeded by a left max-fold iff it is exceeded by the seed
or by some list element. -/
theorem lt_foldl_max (c : ℚ) :
    ∀ (xs : List ℚ) (x : ℚ), c < xs.foldl max x ↔ c < x ∨ ∃ y ∈ xs, c < y := by
  intro xs
  induction xs with
  | nil => intro x; simp
  | cons y ys ih =>
      intro x
      rw [List.foldl_cons, ih (max x y)]
      simp [lt_max_iff, or_assoc]

theorem insertImpactDesc_map_sum (e : SignalContributor) (l : List SignalContributor) :
    ((insertImpactDesc e l).map SignalContributor.impact).sum =
      e.impact + (l.map SignalContributor.impact).sum := by
  induction l with
  | nil => simp [insertImpactDesc]
  | cons h t ih =>
      by_cases hc : h.impact > e.impact
      · rw [insertImpactDesc, if_pos hc]
        simp [ih]
        omega
      · rw [insertImpactDesc, if_neg hc]
        simp

/-- Sorting contributors by impact preserves the impact sum. -/
theorem sortImpactDesc_map_sum (l : List SignalContributor) :
    ((sortImpactDesc l).map SignalContributor.impact).sum =
      (l.map SignalContributor.impact).sum := by
  induction l with
  | nil => rfl
  | cons h t ih =>
      show ((insertImpactDesc h (sortImpactDesc t)).map SignalContributor.impact).sum = _
      rw [insertImpactDesc_map_sum, ih]
      simp

/-! ## Claim C9 -/

/-- C9: for every metrics/baseline pair, `calculateDailyDeviation` sets
`flagCount` to the number of the three percent deltas whose absolute value
lies in the band [5%, 15%] (both endpoints included, as the source's
`>= MIN && <= MAX` comparison implements), and `flagCount` is always at
most 3. -/
theorem c9_flagCount_counts_band (m : HealthMetrics) (b : AnimalBaseline) (today : ℤ) :
    (calculateDailyDeviation m b today).flagCount =
      ([(calculateDailyDeviation m b today).activityDeltaPct,
        (calculateDailyDeviation m b today).speedDeltaPct,
        (calculateDailyDeviation m b today).visitDeltaPct].countP
          (fun x => decide (5 ≤ |x| ∧ |x| ≤ 15))) ∧
    (calculateDailyDeviation m b today).flagCount ≤ 3 := by
  unfold calculateDailyDeviation
  simp only [MIN_DEVIATION_PCT, MAX_DEVIATION_PCT, List.countP_cons, List.countP_nil,
    ge_iff_le]
  by_cases h1 : 5 ≤ |calculateDeviation m.activityLevel b.avgActivityLevel| ∧
      |calculateDeviation m.activityLevel b.avgActivityLevel| ≤ 15 <;>
    by_cases h2 : 5 ≤ |calculateDeviation m.averageSpeed b.avgSpeed| ∧
      |calculateDeviation m.averageSpeed b.avgSpeed| ≤ 15 <;>
    by_cases h3 : 5 ≤ |calculateDeviation m.visitFrequency24h b.avgVisitsPerDay| ∧
      |calculateDeviation m.visitFrequency24h b.avgVisitsPerDay| ≤ 15 <;>
    simp [h1, h2, h3]

/-! ## Claim C1 -/

/-- C1 counterexample: in the herd-baseline path, a zero speed standard
deviation does NOT force a zero speed sub-score.  With current speed 5,
baseline speed 4 and standard deviation 0, the unguarded division
`|5 - 4| / 0` yields +Infinity, which exceeds every threshold: the sub-score
is 25 and the speed-anomaly signal is active, contradicting the claim that
the speed sub-score is 0 in both scoring paths whenever the standard
deviation is 0. -/
theorem c1_counterexample :
    (calculateSpeedSignal 5 4 0).score = 25 ∧
      (calculateSpeedSignal 5 4 0).isActive = true := by
  constructor <;> norm_num [calculateSpeedSignal, jsDivNonneg, JSNum.jgt]

/-- C1 amended: when the speed standard deviation is 0, (i) the personalized
path always yields speed sub-score 0 with an inactive flag (its z-score guard
returns 0), and in particular (ii) `calculatePersonalizedHealthRisk` never
activates the speed-anomaly signal; but in the herd path (iii) the sub-score
is 0 only when the current speed equals the baseline speed (`0 / 0` is NaN
and every comparison with NaN is false), while (iv) for any differing speed
the division yields +Infinity and the sub-score is the maximum 25 with the
signal active. -/
theorem c1_amended :
    (∀ dev : ℚ, (persSpeedSignal (personalSpeedZ dev 0)).score = 0 ∧
        (persSpeedSignal (personalSpeedZ dev 0)).isActive = false) ∧
    (∀ (m : HealthMetrics) (pb : AnimalBaseline) (now cd : ℚ) (ds : DriftState),
        pb.speedStdDev = 0 →
        (calculatePersonalizedHealthRisk m pb now cd ds).signals.speedAnomaly = false) ∧
    (∀ c b : ℚ, c = b → (calculateSpeedSignal c b 0).score = 0 ∧
        (calculateSpeedSignal c b 0).isActive = false) ∧
    (∀ c b : ℚ, c ≠ b → (calculateSpeedSignal c b 0).score = 25 ∧
        (calculateSpeedSignal c b 0).isActive = true) := by
  have hz : ∀ dev : ℚ, personalSpeedZ dev 0 = 0 := by
    intro dev; simp [personalSpeedZ]
  have hp : ∀ dev : ℚ, (persSpeedSignal (personalSpeedZ dev 0)).score = 0 ∧
      (persSpeedSignal (personalSpeedZ dev 0)).isActive = false := by
    intro dev
    rw [hz]
    constructor <;> norm_num [persSpeedSignal]
  refine ⟨hp, ?_, ?_, ?_⟩
  · intro m pb now cd ds hsd
    by_cases hready : isBaselineReady pb
    · simp only [calculatePersonalizedHealthRisk, hready, not_true_eq_false, if_false]
      have := (hp (calculateDeviation m.averageSpeed pb.avgSpeed)).2
      rw [hsd] at *
      simpa using this
    · simp [calculatePersonalizedHealthRisk, hready]
  · intro c b hcb
    subst hcb
    constructor <;> simp [calculateSpeedSignal, jsDivNonneg, JSNum.jgt]
  · intro c b hcb
    have habs : |c - b| ≠ 0 := by
      simp [abs_eq_zero, sub_eq_zero, hcb]
    constructor <;> simp [calculateSpeedSignal, jsDivNonneg, habs, JSNum.jgt]

/-- C1 amended, witness: the amended theorem evaluated at concrete inputs —
deviation 7 on the personalized helper; a stable personal baseline with zero
standard deviation; equal herd speeds 3 = 3; and differing herd speeds
5 ≠ 4. -/
theorem c1_amended_witness :
    ((persSpeedSignal (personalSpeedZ 7 0)).score = 0 ∧
      (persSpeedSignal (personalSpeedZ 7 0)).isActive = false) ∧
    ((calculatePersonalizedHealthRisk ⟨100, 10, 20, 4⟩
        ⟨4, 10, 100, 0, 0, 0, .STABLE, 20, 20⟩ 0 1 .STABLE).signals.speedAnomaly = false) ∧
    ((calculateSpeedSignal 3 3 0).score = 0 ∧
      (calculateSpeedSignal 3 3 0).isActive = false) ∧
    ((calculateSpeedSignal 5 4 0).score = 25 ∧
      (calculateSpeedSignal 5 4 0).isActive = true) :=
  ⟨c1_amended.1 7,
    c1_amended.2.1 ⟨100, 10, 20, 4⟩ ⟨4, 10, 100, 0, 0, 0, .STABLE, 20, 20⟩ 0 1 .STABLE rfl,
    c1_amended.2.2.1 3 3 rfl,
    c1_amended.2.2.2 5 4 (by norm_num)⟩

/-! ## Engine lemmas -/

theorem calculateDeviation_self (c : ℚ) : calculateDeviation c c = 0 := by
  by_cases h : c = 0 <;> simp [calculateDeviation, h]

theorem personalSpeedZ_zero_dev (s : ℚ) : personalSpeedZ 0 s = 0 := by
  unfold personalSpeedZ
  split <;> simp

theorem persActivitySignal_zero :
    persActivitySignal 0 = ⟨0, "Activity normal for this animal", false⟩ := by
  norm_num [persActivitySignal]

theorem persVisitSignal_zero :
    persVisitSignal 0 = ⟨0, "Corridor visits normal for this animal", false⟩ := by
  norm_num [persVisitSignal]

theorem persSpeedSignal_zero :
    persSpeedSignal 0 = ⟨0, "Speed normal for this animal", false⟩ := by
  norm_num [persSpeedSignal]

theorem calculateActivitySignal_self (c : ℚ) :
    calculateActivitySignal c c = ⟨0, false⟩ := by
  by_cases h : c = 0
  · simp [calculateActivitySignal, jsPct, h, JSNum.jle]
  · norm_num [calculateActivitySignal, jsPct, h, JSNum.jle]

theorem calculateSpeedSignal_self (c s : ℚ) :
    calculateSpeedSignal c c s = ⟨0, false⟩ := by
  by_cases h : s = 0 <;>
    norm_num [calculateSpeedSignal, jsDivNonneg, h, JSNum.jgt]

theorem calculateVisitSignal_normal (v : ℚ) (hv : 0 ≤ v) :
    calculateVisitSignal v (2 * v) v = ⟨0, false⟩ := by
  have htrend : ¬ (2 * v < v * 1.8) := by intro hc; nlinarith
  by_cases h : v = 0
  · subst h
    norm_num [calculateVisitSignal, jsPct, JSNum.jle]
  · norm_num [calculateVisitSignal, jsPct, h, JSNum.jle, htrend]
    linarith

/-- The LEARNING branch of `calculatePersonalizedHealthRisk`, in closed form. -/
theorem calcPers_learning_eq (m : HealthMetrics) (pb : AnimalBaseline)
    (now cd : ℚ) (ds : DriftState) (h : pb.baselineStatus = .LEARNING) :
    calculatePersonalizedHealthRisk m pb now cd ds =
      { riskLevel := .LOW
        riskScore := 0
        signals := ⟨false, false, false⟩
        contributingFactors :=
          ["Baseline learning in progress - health monitoring will activate once stable"]
        baselineUsed := false
        deviationScore := 0
        baselineStatus := .LEARNING
        learningProgress := some (calculateLearningProgress pb now)
        explanation := none } := by
  have hr : isBaselineReady pb = false := by simp [isBaselineReady, h]
  simp [calculatePersonalizedHealthRisk, hr]

theorem calcPers_stable_riskScore (m : HealthMetrics) (pb : AnimalBaseline)
    (now cd : ℚ) (ds : DriftState) (h : pb.baselineStatus = .STABLE) :
    (calculatePersonalizedHealthRisk m pb now cd ds).riskScore =
      (persActivitySignal (calculateDeviation m.activityLevel pb.avgActivityLevel)).score +
      (persVisitSignal (calculateDeviation m.visitFrequency24h pb.avgVisitsPerDay)).score +
      (persSpeedSignal (personalSpeedZ (calculateDeviation m.averageSpeed pb.avgSpeed)
        pb.speedStdDev)).score := by
  have hr : isBaselineReady pb = true := by simp [isBaselineReady, h]
  simp [calculatePersonalizedHealthRisk, hr]

theorem calcPers_stable_riskLevel (m : HealthMetrics) (pb : AnimalBaseline)
    (now cd : ℚ) (ds : DriftState) (h : pb.baselineStatus = .STABLE) :
    (calculatePersonalizedHealthRisk m pb now cd ds).riskLevel =
      calculateRiskLevel ((calculatePersonalizedHealthRisk m pb now cd ds).riskScore) := by
  have hr : isBaselineReady pb = true := by simp [isBaselineReady, h]
  simp [calculatePersonalizedHealthRisk, hr]

theorem calcPers_stable_signals (m : HealthMetrics) (pb : AnimalBaseline)
    (now cd : ℚ) (ds : DriftState) (h : pb.baselineStatus = .STABLE) :
    (calculatePersonalizedHealthRisk m pb now cd ds).signals =
      ⟨(persActivitySignal (calculateDeviation m.activityLevel pb.avgActivityLevel)).isActive,
       (persSpeedSignal (personalSpeedZ (calculateDeviation m.averageSpeed pb.avgSpeed)
         pb.speedStdDev)).isActive,
       (persVisitSignal (calculateDeviation m.visitFrequency24h pb.avgVisitsPerDay)).isActive⟩ := by
  have hr : isBaselineReady pb = true := by simp [isBaselineReady, h]
  simp [calculatePersonalizedHealthRisk, hr]

theorem persActivity_active_iff (dev : ℚ) :
    (persActivitySignal dev).isActive = true ↔ dev ≤ -15 := by
  unfold persActivitySignal
  split_ifs with h1 h2 h3 <;> simp <;> linarith

theorem persVisit_active_iff (dev : ℚ) :
    (persVisitSignal dev).isActive = true ↔ dev ≤ -20 := by
  unfold persVisitSignal
  split_ifs with h1 h2 h3 <;> simp <;> linarith

theorem persSpeed_active_iff (z : ℚ) :
    (persSpeedSignal z).isActive = true ↔ 1.5 < z := by
  unfold persSpeedSignal
  split_ifs with h1 h2 h3 <;> simp <;> linarith

/-- When the activity signal is active (deviation ≤ −15), the impact the
explanation recomputes equals the engine's activity sub-score. -/
theorem activityImpact_eq_score (dev : ℚ) (h : dev ≤ -15) :
    calculateActivityImpact dev = (persActivitySignal dev).score := by
  have habs : |dev| = -dev := abs_of_nonpos (by linarith)
  by_cases h30 : dev ≤ -30
  · have h1 : |dev| ≥ 30 := by rw [habs]; linarith
    simp [calculateActivityImpact, persActivitySignal, h30, h1]
  · have h1 : ¬ |dev| ≥ 30 := by rw [habs]; push_neg at h30 ⊢; linarith
    have h2 : |dev| ≥ 15 := by rw [habs]; linarith
    simp [calculateActivityImpact, persActivitySignal, h30, h1, h2, h]

/-- When the visit signal is active (deviation ≤ −20), the impact the
explanation recomputes equals the engine's visit sub-score. -/
theorem visitImpact_eq_score (dev : ℚ) (h : dev ≤ -20) :
    calculateVisitImpact dev = (persVisitSignal dev).score := by
  have habs : |dev| = -dev := abs_of_nonpos (by linarith)
  by_cases h40 : dev ≤ -40
  · have h1 : |dev| ≥ 40 := by rw [habs]; linarith
    simp [calculateVisitImpact, persVisitSignal, h40, h1]
  · have h1 : ¬ |dev| ≥ 40 := by rw [habs]; push_neg at h40 ⊢; linarith
    have h2 : |dev| ≥ 20 := by rw [habs]; linarith
    simp [calculateVisitImpact, persVisitSignal, h40, h1, h2, h]

/-- For a positive standard deviation, the impact the explanation recomputes
for the speed signal equals the engine's speed sub-score (both compute the
same z-score buckets). -/
theorem speedImpact_eq_score (dev s : ℚ) (hs : 0 < s) :
    calculateSpeedImpact dev s = (persSpeedSignal (personalSpeedZ dev s)).score := by
  have hs0 : s ≠ 0 := ne_of_gt hs
  simp only [calculateSpeedImpact, if_neg hs0, personalSpeedZ, if_pos hs, persSpeedSignal]
  split_ifs <;> rfl

/-- If the personalized speed z-score is positive, the standard deviation of
the baseline is positive. -/
theorem personalSpeedZ_pos_stdDev (dev s : ℚ) (h : 0 < personalSpeedZ dev s) : 0 < s := by
  by_contra hc
  rw [personalSpeedZ, if_neg (by exact fun hgt => hc hgt)] at h
  exact lt_irrefl 0 h

theorem persActivitySignal_score_le (dev : ℚ) : (persActivitySignal dev).score ≤ 40 := by
  unfold persActivitySignal
  split_ifs <;> norm_num

theorem persVisitSignal_score_le (dev : ℚ) : (persVisitSignal dev).score ≤ 35 := by
  unfold persVisitSignal
  split_ifs <;> norm_num

theorem persSpeedSignal_score_le (z : ℚ) : (persSpeedSignal z).score ≤ 25 := by
  unfold persSpeedSignal
  split_ifs <;> norm_num

theorem calculateActivitySignal_score_le (c b : ℚ) :
    (calculateActivitySignal c b).score ≤ 40 := by
  simp only [calculateActivitySignal]
  split_ifs <;> norm_num

theorem calculateVisitSignal_score_le (v24 v48 b : ℚ) :
    (calculateVisitSignal v24 v48 b).score ≤ 35 := by
  simp only [calculateVisitSignal]
  split_ifs <;> norm_num

theorem calculateSpeedSignal_score_le (c b s : ℚ) :
    (calculateSpeedSignal c b s).score ≤ 25 := by
  simp only [calculateSpeedSignal]
  split_ifs <;> norm_num

/-- Threshold characterization of `calculateRiskLevel`. -/
theorem calculateRiskLevel_spec (n : ℕ) :
    (calculateRiskLevel n = .HIGH ↔ 66 ≤ n) ∧
    (calculateRiskLevel n = .MODERATE ↔ 31 ≤ n ∧ n < 66) ∧
    (calculateRiskLevel n = .LOW ↔ n < 31) := by
  unfold calculateRiskLevel
  split_ifs with h1 h2 <;> refine ⟨?_, ?_, ?_⟩ <;> simp <;> omega

/-- Projections of the herd assessment. -/
theorem calculateHealthRisk_riskScore (m : HealthMetrics) (b : HealthBaseline) :
    (calculateHealthRisk m b).riskScore =
      (calculateActivitySignal m.activityLevel b.avgActivityLevel).score +
      (calculateVisitSignal m.visitFrequency24h m.visitFrequency48h b.avgVisitFrequency).score +
      (calculateSpeedSignal m.averageSpeed b.avgSpeed b.speedStdDev).score := rfl

theorem calculateHealthRisk_riskLevel (m : HealthMetrics) (b : HealthBaseline) :
    (calculateHealthRisk m b).riskLevel =
      calculateRiskLevel ((calculateHealthRisk m b).riskScore) := rfl

/-! ## Claim C4 -/

/-- C4: for every personal baseline still LEARNING,
`calculatePersonalizedHealthRisk` short-circuits to the forced zero result:
risk level LOW, risk score 0, all three signal flags false, `baselineUsed`
false, `baselineStatus` LEARNING, a learning-progress value, and the single
contributing factor announcing that baseline learning is in progress —
regardless of the supplied metrics. -/
theorem c4_learning_forced_low (m : HealthMetrics) (pb : AnimalBaseline)
    (now cd : ℚ) (ds : DriftState) (h : pb.baselineStatus = .LEARNING) :
    (calculatePersonalizedHealthRisk m pb now cd ds).riskLevel = .LOW ∧
    (calculatePersonalizedHealthRisk m pb now cd ds).riskScore = 0 ∧
    (calculatePersonalizedHealthRisk m pb now cd ds).signals = ⟨false, false, false⟩ ∧
    (calculatePersonalizedHealthRisk m pb now cd ds).baselineUsed = false ∧
    (calculatePersonalizedHealthRisk m pb now cd ds).baselineStatus = .LEARNING ∧
    (calculatePersonalizedHealthRisk m pb now cd ds).learningProgress =
      some (calculateLearningProgress pb now) ∧
    (calculatePersonalizedHealthRisk m pb now cd ds).contributingFactors =
      ["Baseline learning in progress - health monitoring will activate once stable"] := by
  rw [calcPers_learning_eq m pb now cd ds h]
  exact ⟨rfl, rfl, rfl, rfl, rfl, rfl, rfl⟩

/-- C4 witness: the theorem applied to a concrete LEARNING baseline (5 of 20
data points, one day in) and arbitrary concrete metrics. -/
theorem c4_learning_forced_low_witness :
    (calculatePersonalizedHealthRisk ⟨100, 10, 20, 4⟩
        ⟨4, 10, 100, 1, 1, 0, .LEARNING, 5, 20⟩ 86400000 1 .STABLE).riskLevel = .LOW ∧
    (calculatePersonalizedHealthRisk ⟨100, 10, 20, 4⟩
        ⟨4, 10, 100, 1, 1, 0, .LEARNING, 5, 20⟩ 86400000 1 .STABLE).riskScore = 0 ∧
    (calculatePersonalizedHealthRisk ⟨100, 10, 20, 4⟩
        ⟨4, 10, 100, 1, 1, 0, .LEARNING, 5, 20⟩ 86400000 1 .STABLE).signals =
      ⟨false, false, false⟩ ∧
    (calculatePersonalizedHealthRisk ⟨100, 10, 20, 4⟩
        ⟨4, 10, 100, 1, 1, 0, .LEARNING, 5, 20⟩ 86400000 1 .STABLE).baselineUsed = false ∧
    (calculatePersonalizedHealthRisk ⟨100, 10, 20, 4⟩
        ⟨4, 10, 100, 1, 1, 0, .LEARNING, 5, 20⟩ 86400000 1 .STABLE).baselineStatus =
      .LEARNING ∧
    (calculatePersonalizedHealthRisk ⟨100, 10, 20, 4⟩
        ⟨4, 10, 100, 1, 1, 0, .LEARNING, 5, 20⟩ 86400000 1 .STABLE).learningProgress =
      some (calculateLearningProgress ⟨4, 10, 100, 1, 1, 0, .LEARNING, 5, 20⟩ 86400000) ∧
    (calculatePersonalizedHealthRisk ⟨100, 10, 20, 4⟩
        ⟨4, 10, 100, 1, 1, 0, .LEARNING, 5, 20⟩ 86400000 1 .STABLE).contributingFactors =
      ["Baseline learning in progress - health monitoring will activate once stable"] :=
  c4_learning_forced_low ⟨100, 10, 20, 4⟩ ⟨4, 10, 100, 1, 1, 0, .LEARNING, 5, 20⟩
    86400000 1 .STABLE rfl

/-! ## Claim C7 -/

/-- C7: when every current metric equals its baseline value (zero deviation
on activity, speed and visits — for the herd path the 48h count standing at
its normal level of twice the nonnegative daily baseline), the risk score is
0 and the risk level is LOW, on both scoring paths (on the personalized path
regardless of baseline status, since the LEARNING branch also forces 0/LOW). -/
theorem c7_zero_deviation_low (m : HealthMetrics) (b : HealthBaseline)
    (pb : AnimalBaseline) (now cd : ℚ) (ds : DriftState) :
    (m.activityLevel = b.avgActivityLevel → m.averageSpeed = b.avgSpeed →
      m.visitFrequency24h = b.avgVisitFrequency →
      m.visitFrequency48h = 2 * b.avgVisitFrequency → 0 ≤ b.avgVisitFrequency →
      (calculateHealthRisk m b).riskScore = 0 ∧
      (calculateHealthRisk m b).riskLevel = .LOW) ∧
    (m.activityLevel = pb.avgActivityLevel → m.averageSpeed = pb.avgSpeed →
      m.visitFrequency24h = pb.avgVisitsPerDay →
      (calculatePersonalizedHealthRisk m pb now cd ds).riskScore = 0 ∧
      (calculatePersonalizedHealthRisk m pb now cd ds).riskLevel = .LOW) := by
  constructor
  · intro h1 h2 h3 h4 h5
    have hs : (calculateHealthRisk m b).riskScore = 0 := by
      rw [calculateHealthRisk_riskScore, h1, h2, h3, h4,
        calculateActivitySignal_self, calculateSpeedSignal_self,
        calculateVisitSignal_normal _ h5]
      rfl
    refine ⟨hs, ?_⟩
    rw [calculateHealthRisk_riskLevel, hs]
    exact (calculateRiskLevel_spec 0).2.2.mpr (by norm_num)
  · intro h1 h2 h3
    by_cases hst : pb.baselineStatus = .STABLE
    · have hs : (calculatePersonalizedHealthRisk m pb now cd ds).riskScore = 0 := by
        rw [calcPers_stable_riskScore m pb now cd ds hst, h1, h2, h3,
          calculateDeviation_self, calculateDeviation_self, calculateDeviation_self,
          personalSpeedZ_zero_dev, persActivitySignal_zero, persVisitSignal_zero,
          persSpeedSignal_zero]
        rfl
      refine ⟨hs, ?_⟩
      rw [calcPers_stable_riskLevel m pb now cd ds hst, hs]
      exact (calculateRiskLevel_spec 0).2.2.mpr (by norm_num)
    · have hl : pb.baselineStatus = .LEARNING := by
        rcases hstatus : pb.baselineStatus with _ | _
        · rfl
        · exact absurd hstatus hst
      rw [calcPers_learning_eq m pb now cd ds hl]
      exact ⟨rfl, rfl⟩

/-- C7 witness: the spec's own example — activity 1050 vs baseline 1050,
speed 3.8 vs 3.8 (stddev 0.4), visits 7 vs 7 with 14 visits over 48h — on
both paths. -/
theorem c7_zero_deviation_low_witness :
    ((calculateHealthRisk ⟨1050, 7, 14, 19/5⟩ ⟨1050, 7, 19/5, 2/5⟩).riskScore = 0 ∧
      (calculateHealthRisk ⟨1050, 7, 14, 19/5⟩ ⟨1050, 7, 19/5, 2/5⟩).riskLevel = .LOW) ∧
    ((calculatePersonalizedHealthRisk ⟨1050, 7, 14, 19/5⟩
        ⟨19/5, 7, 1050, 2/5, 1, 0, .STABLE, 20, 20⟩ 0 1 .STABLE).riskScore = 0 ∧
      (calculatePersonalizedHealthRisk ⟨1050, 7, 14, 19/5⟩
        ⟨19/5, 7, 1050, 2/5, 1, 0, .STABLE, 20, 20⟩ 0 1 .STABLE).riskLevel = .LOW) :=
  ⟨(c7_zero_deviation_low ⟨1050, 7, 14, 19/5⟩ ⟨1050, 7, 19/5, 2/5⟩
      ⟨19/5, 7, 1050, 2/5, 1, 0, .STABLE, 20, 20⟩ 0 1 .STABLE).1
      rfl rfl rfl (by norm_num) (by norm_num),
   (c7_zero_deviation_low ⟨1050, 7, 14, 19/5⟩ ⟨1050, 7, 19/5, 2/5⟩
      ⟨19/5, 7, 1050, 2/5, 1, 0, .STABLE, 20, 20⟩ 0 1 .STABLE).2 rfl rfl rfl⟩

/-! ## Claim C8 -/

/-- C8: on both paths the risk score is the plain sum of the three
independently-capped sub-scores (activity ≤ 40, visits ≤ 35, speed ≤ 25), the
total never exceeds 100 (it is a natural number, so it is also ≥ 0), and the
risk level is HIGH exactly at a total ≥ 66, MODERATE exactly in [31, 66), and
LOW exactly below 31.  On the personalized path the sum statement holds on the
STABLE branch; the LEARNING branch forces the score to 0 = 0 + 0 + 0, and the
level thresholds hold unconditionally. -/
theorem c8_sum_caps_levels (m : HealthMetrics) (b : HealthBaseline)
    (pb : AnimalBaseline) (now cd : ℚ) (ds : DriftState) :
    ((calculateHealthRisk m b).riskScore =
        (calculateActivitySignal m.activityLevel b.avgActivityLevel).score +
        (calculateVisitSignal m.visitFrequency24h m.visitFrequency48h
          b.avgVisitFrequency).score +
        (calculateSpeedSignal m.averageSpeed b.avgSpeed b.speedStdDev).score ∧
      (calculateActivitySignal m.activityLevel b.avgActivityLevel).score ≤ 40 ∧
      (calculateVisitSignal m.visitFrequency24h m.visitFrequency48h
        b.avgVisitFrequency).score ≤ 35 ∧
      (calculateSpeedSignal m.averageSpeed b.avgSpeed b.speedStdDev).score ≤ 25 ∧
      (calculateHealthRisk m b).riskScore ≤ 100 ∧
      ((calculateHealthRisk m b).riskLevel = .HIGH ↔
        66 ≤ (calculateHealthRisk m b).riskScore) ∧
      ((calculateHealthRisk m b).riskLevel = .MODERATE ↔
        31 ≤ (calculateHealthRisk m b).riskScore ∧
          (calculateHealthRisk m b).riskScore < 66) ∧
      ((calculateHealthRisk m b).riskLevel = .LOW ↔
        (calculateHealthRisk m b).riskScore < 31)) ∧
    ((pb.baselineStatus = .STABLE →
        (calculatePersonalizedHealthRisk m pb now cd ds).riskScore =
          (persActivitySignal (calculateDeviation m.activityLevel
            pb.avgActivityLevel)).score +
          (persVisitSignal (calculateDeviation m.visitFrequency24h
            pb.avgVisitsPerDay)).score +
          (persSpeedSignal (personalSpeedZ (calculateDeviation m.averageSpeed
            pb.avgSpeed) pb.speedStdDev)).score) ∧
      (pb.baselineStatus = .LEARNING →
        (calculatePersonalizedHealthRisk m pb now cd ds).riskScore = 0) ∧
      (∀ dev : ℚ, (persActivitySignal dev).score ≤ 40) ∧
      (∀ dev : ℚ, (persVisitSignal dev).score ≤ 35) ∧
      (∀ z : ℚ, (persSpeedSignal z).score ≤ 25) ∧
      (calculatePersonalizedHealthRisk m pb now cd ds).riskScore ≤ 100 ∧
      ((calculatePersonalizedHealthRisk m pb now cd ds).riskLevel = .HIGH ↔
        66 ≤ (calculatePersonalizedHealthRisk m pb now cd ds).riskScore) ∧
      ((calculatePersonalizedHealthRisk m pb now cd ds).riskLevel = .MODERATE ↔
        31 ≤ (calculatePersonalizedHealthRisk m pb now cd ds).riskScore ∧
          (calculatePersonalizedHealthRisk m pb now cd ds).riskScore < 66) ∧
      ((calculatePersonalizedHealthRisk m pb now cd ds).riskLevel = .LOW ↔
        (calculatePersonalizedHealthRisk m pb now cd ds).riskScore < 31)) := by
  constructor
  · have hsum := calculateHealthRisk_riskScore m b
    have ha := calculateActivitySignal_score_le m.activityLevel b.avgActivityLevel
    have hv := calculateVisitSignal_score_le m.visitFrequency24h m.visitFrequency48h
      b.avgVisitFrequency
    have hss := calculateSpeedSignal_score_le m.averageSpeed b.avgSpeed b.speedStdDev
    refine ⟨hsum, ha, hv, hss, by omega, ?_, ?_, ?_⟩
    · rw [calculateHealthRisk_riskLevel]
      exact (calculateRiskLevel_spec _).1
    · rw [calculateHealthRisk_riskLevel]
      exact (calculateRiskLevel_spec _).2.1
    · rw [calculateHealthRisk_riskLevel]
      exact (calculateRiskLevel_spec _).2.2
  · by_cases hst : pb.baselineStatus = .STABLE
    · have hsum := calcPers_stable_riskScore m pb now cd ds hst
      refine ⟨fun _ => hsum, ?_, persActivitySignal_score_le, persVisitSignal_score_le,
        persSpeedSignal_score_le, ?_, ?_, ?_, ?_⟩
      · intro hl
        rw [hst] at hl
        exact absurd hl (by simp)
      · have ha := persActivitySignal_score_le
          (calculateDeviation m.activityLevel pb.avgActivityLevel)
        have hv := persVisitSignal_score_le
          (calculateDeviation m.visitFrequency24h pb.avgVisitsPerDay)
        have hss := persSpeedSignal_score_le
          (personalSpeedZ (calculateDeviation m.averageSpeed pb.avgSpeed) pb.speedStdDev)
        omega
      · rw [calcPers_stable_riskLevel m pb now cd ds hst]
        exact (calculateRiskLevel_spec _).1
      · rw [calcPers_stable_riskLevel m pb now cd ds hst]
        exact (calculateRiskLevel_spec _).2.1
      · rw [calcPers_stable_riskLevel m pb now cd ds hst]
        exact (calculateRiskLevel_spec _).2.2
    · have hl : pb.baselineStatus = .LEARNING := by
        rcases hstatus : pb.baselineStatus with _ | _
        · rfl
        · exact absurd hstatus hst
      rw [calcPers_learning_eq m pb now cd ds hl]
      refine ⟨fun hc => absurd (hl.symm.trans hc) (by simp), fun _ => rfl,
        persActivitySignal_score_le, persVisitSignal_score_le,
        persSpeedSignal_score_le, by norm_num, by simp, by simp, by simp⟩

/-- C8 witness: the theorem applied at concrete inputs — a herd assessment,
a STABLE personal baseline (score = sum of sub-scores) and a LEARNING
personal baseline (score forced to 0). -/
theorem c8_sum_caps_levels_witness :
    ((calculateHealthRisk ⟨500, 3, 6, 2⟩ ⟨1000, 7, 4, 1/2⟩).riskScore =
      (calculateActivitySignal 500 1000).score +
      (calculateVisitSignal 3 6 7).score +
      (calculateSpeedSignal 2 4 (1/2)).score) ∧
    ((calculateHealthRisk ⟨500, 3, 6, 2⟩ ⟨1000, 7, 4, 1/2⟩).riskScore ≤ 100) ∧
    ((calculatePersonalizedHealthRisk ⟨500, 3, 6, 2⟩
        ⟨4, 7, 1000, 1/2, 1, 0, .STABLE, 20, 20⟩ 0 1 .STABLE).riskScore =
      (persActivitySignal (calculateDeviation 500 1000)).score +
      (persVisitSignal (calculateDeviation 3 7)).score +
      (persSpeedSignal (personalSpeedZ (calculateDeviation 2 4) (1/2))).score) ∧
    ((calculatePersonalizedHealthRisk ⟨500, 3, 6, 2⟩
        ⟨4, 7, 1000, 1/2, 1, 0, .LEARNING, 5, 20⟩ 0 1 .STABLE).riskScore = 0) :=
  ⟨(c8_sum_caps_levels ⟨500, 3, 6, 2⟩ ⟨1000, 7, 4, 1/2⟩
      ⟨4, 7, 1000, 1/2, 1, 0, .STABLE, 20, 20⟩ 0 1 .STABLE).1.1,
   (c8_sum_caps_levels ⟨500, 3, 6, 2⟩ ⟨1000, 7, 4, 1/2⟩
      ⟨4, 7, 1000, 1/2, 1, 0, .STABLE, 20, 20⟩ 0 1 .STABLE).1.2.2.2.2.1,
   (c8_sum_caps_levels ⟨500, 3, 6, 2⟩ ⟨1000, 7, 4, 1/2⟩
      ⟨4, 7, 1000, 1/2, 1, 0, .STABLE, 20, 20⟩ 0 1 .STABLE).2.1 rfl,
   (c8_sum_caps_levels ⟨500, 3, 6, 2⟩ ⟨1000, 7, 4, 1/2⟩
      ⟨4, 7, 1000, 1/2, 1, 0, .LEARNING, 5, 20⟩ 0 1 .STABLE).2.2.1 rfl⟩

/-- Threshold characterization of `calculateDriftState`. -/
theorem calculateDriftState_spec (k : ℕ) (M : ℚ) :
    (calculateDriftState k M = .ACTION_REQUIRED ↔ 5 ≤ k ∨ 15 < M) ∧
    (calculateDriftState k M = .EARLY_DRIFT ↔ 3 ≤ k ∧ ¬(5 ≤ k ∨ 15 < M)) ∧
    (calculateDriftState k M = .STABLE ↔ k < 3 ∧ ¬ 15 < M) := by
  unfold calculateDriftState
  simp only [ACTION_THRESHOLD_DAYS, MAX_DEVIATION_PCT, CONSECUTIVE_DAYS, ge_iff_le,
    gt_iff_lt]
  by_cases h1 : 5 ≤ k ∨ 15 < M
  · rw [if_pos h1]
    refine ⟨by simp [h1], ?_, ?_⟩
    · simp only [show (DriftState.ACTION_REQUIRED = DriftState.EARLY_DRIFT) ↔ False by
        simp, false_iff]
      rintro ⟨_, hneg⟩
      exact hneg h1
    · simp only [show (DriftState.ACTION_REQUIRED = DriftState.STABLE) ↔ False by
        simp, false_iff]
      rintro ⟨hk3, hM⟩
      rcases h1 with h5 | hMM
      · omega
      · exact hM hMM
  · rw [if_neg h1]
    by_cases h2 : 3 ≤ k
    · rw [if_pos h2]
      refine ⟨by simp [h1], by simp [h2, h1], ?_⟩
      simp only [show (DriftState.EARLY_DRIFT = DriftState.STABLE) ↔ False by
        simp, false_iff]
      rintro ⟨hk3, _⟩
      omega
    · rw [if_neg h2]
      refine ⟨by simp [h1], ?_, ?_⟩
      · simp only [show (DriftState.STABLE = DriftState.EARLY_DRIFT) ↔ False by
          simp, false_iff]
        rintro ⟨h3, _⟩
        exact h2 h3
      · simp only [true_iff, show (DriftState.STABLE = DriftState.STABLE) ↔ True by simp]
        exact ⟨by omega, fun hM => h1 (Or.inr hM)⟩

/-- The rolling window is already sorted, so sorting it again is the
identity. -/
theorem sortDateDesc_window (now : ℤ) (devs : List DailyDeviation) :
    sortDateDesc (filterToRollingWindow now devs) = filterToRollingWindow now devs :=
  sortDateDesc_eq_self (sortDateDesc_pairwise _)

/-! ## Claim C3 -/

/-- C3: for every deviation list (and window cutoff), the drift state reported
by `generateEarlyWarningAssessment` is ACTION_REQUIRED exactly when the
consecutive qualifying-day count is ≥ 5 or some day of the 7-day window has a
maximum absolute deviation across the three signals above 15%; EARLY_DRIFT
exactly when that count is ≥ 3 and no ACTION_REQUIRED condition holds; and
STABLE otherwise — where the count is the length of the qualifying prefix
(`flagCount ≥ 2`) of the date-descending window, i.e. the scan stops at the
first non-qualifying day, and that count is also the reported
`consecutiveDaysWithDrift`. -/
theorem c3_drift_state_classification (now : ℤ) (devs : List DailyDeviation) :
    (generateEarlyWarningAssessment now devs).consecutiveDaysWithDrift =
      ((filterToRollingWindow now devs).takeWhile isDriftDay).length ∧
    ((generateEarlyWarningAssessment now devs).driftState = .ACTION_REQUIRED ↔
      5 ≤ ((filterToRollingWindow now devs).takeWhile isDriftDay).length ∨
      ∃ d ∈ filterToRollingWindow now devs, 15 < dayMaxDeviation d) ∧
    ((generateEarlyWarningAssessment now devs).driftState = .EARLY_DRIFT ↔
      3 ≤ ((filterToRollingWindow now devs).takeWhile isDriftDay).length ∧
      ¬(5 ≤ ((filterToRollingWindow now devs).takeWhile isDriftDay).length ∨
        ∃ d ∈ filterToRollingWindow now devs, 15 < dayMaxDeviation d)) ∧
    ((generateEarlyWarningAssessment now devs).driftState = .STABLE ↔
      ((filterToRollingWindow now devs).takeWhile isDriftDay).length < 3 ∧
      ¬ ∃ d ∈ filterToRollingWindow now devs, 15 < dayMaxDeviation d) := by
  have hcount : (generateEarlyWarningAssessment now devs).consecutiveDaysWithDrift =
      ((filterToRollingWindow now devs).takeWhile isDriftDay).length := by
    simp only [generateEarlyWarningAssessment, detectConsecutiveDrift,
      sortDateDesc_window, driftScan_fst, Nat.zero_add]
  have hstate : (generateEarlyWarningAssessment now devs).driftState =
      calculateDriftState ((filterToRollingWindow now devs).takeWhile isDriftDay).length
        (match (filterToRollingWindow now devs).map dayMaxDeviation with
          | [] => 0
          | x :: xs => xs.foldl max x) := by
    simp only [generateEarlyWarningAssessment, detectConsecutiveDrift,
      sortDateDesc_window, driftScan_fst, Nat.zero_add]
  have hmax : ((15 : ℚ) < match (filterToRollingWindow now devs).map dayMaxDeviation with
      | [] => 0
      | x :: xs => xs.foldl max x) ↔
      ∃ d ∈ filterToRollingWindow now devs, 15 < dayMaxDeviation d := by
    cases hwc : filterToRollingWindow now devs with
    | nil => simp
    | cons d t =>
        simp only [List.map_cons, lt_foldl_max]
        constructor
        · rintro (h | ⟨y, hy, hlt⟩)
          · exact ⟨d, List.mem_cons_self d t, h⟩
          · rcases List.mem_map.mp hy with ⟨e, he, rfl⟩
            exact ⟨e, List.mem_cons_of_mem d he, hlt⟩
        · rintro ⟨e, he, hlt⟩
          rcases List.mem_cons.mp he with rfl | he2
          · exact Or.inl hlt
          · exact Or.inr ⟨dayMaxDeviation e, List.mem_map.mpr ⟨e, he2, rfl⟩, hlt⟩
  refine ⟨hcount, ?_, ?_, ?_⟩
  · rw [hstate, (calculateDriftState_spec _ _).1, hmax]
  · rw [hstate, (calculateDriftState_spec _ _).2.1, hmax]
  · rw [hstate, (calculateDriftState_spec _ _).2.2, hmax]

/-! ## Claim C10 -/

/-- C10: a concrete two-day history whose most recent day (date 100) has
`flagCount` 0 (< 2) while the previous day carries a 20% activity deviation
(> 15%): the assessment is ACTION_REQUIRED with a consecutive-day count of 0
and no triggered signals, and the advisory message is still produced, reading
"over 0 days" with an empty signal list. -/
theorem c10_action_required_with_empty_chain :
    (generateEarlyWarningAssessment 100
      [⟨100, 0, 0, 0, 0⟩, ⟨99, 20, 0, 0, 0⟩]).driftState = .ACTION_REQUIRED ∧
    (generateEarlyWarningAssessment 100
      [⟨100, 0, 0, 0, 0⟩, ⟨99, 20, 0, 0, 0⟩]).consecutiveDaysWithDrift = 0 ∧
    (generateEarlyWarningAssessment 100
      [⟨100, 0, 0, 0, 0⟩, ⟨99, 20, 0, 0, 0⟩]).triggeredSignals = [] ∧
    (generateEarlyWarningAssessment 100
      [⟨100, 0, 0, 0, 0⟩, ⟨99, 20, 0, 0, 0⟩]).earlyWarningMessage =
      some "Sustained behavioral drift over 0 days in: . Veterinary consultation recommended." := by
  refine ⟨?_, ?_, ?_, ?_⟩ <;> decide

/-! ## Claim C6 -/

/-- C6 counterexample: the personalized path has NO secondary 48h check.  With
a stable personal baseline of 10 visits/day, current 24h visits exactly at
baseline (0% drop) but only 5 visits over 48h — which is below 1.8 × 10 = 18,
so the claimed 48h condition holds — the visit sub-score is 0, not 35, and the
visit-reduction signal is inactive: the whole risk score is 0. -/
theorem c6_counterexample :
    ((5 : ℚ) < 10 * 1.8) ∧
    (calculatePersonalizedHealthRisk ⟨100, 10, 5, 4⟩
      ⟨4, 10, 100, 1, 1, 0, .STABLE, 20, 20⟩ 0 1 .STABLE).riskScore = 0 ∧
    (calculatePersonalizedHealthRisk ⟨100, 10, 5, 4⟩
      ⟨4, 10, 100, 1, 1, 0, .STABLE, 20, 20⟩ 0 1 .STABLE).signals.visitReduction = false := by
  have hst : (⟨4, 10, 100, 1, 1, 0, .STABLE, 20, 20⟩ : AnimalBaseline).baselineStatus =
      .STABLE := rfl
  refine ⟨by norm_num, ?_, ?_⟩
  · rw [calcPers_stable_riskScore _ _ _ _ _ hst]
    norm_num [calculateDeviation, persActivitySignal, persVisitSignal, persSpeedSignal,
      personalSpeedZ]
  · rw [calcPers_stable_signals _ _ _ _ _ hst]
    norm_num [calculateDeviation, persVisitSignal]

/-- C6 amended: the herd-path visit sub-score is 35 with an active flag
exactly when the 24h percent drop is ≥ 40% or the 48h count is below 1.8 ×
the (positive) baseline, else 20/active at a ≥ 20% drop, 10/inactive at a
≥ 10% drop, else 0; the personalized-path visit sub-score uses the same drop
buckets but depends only on the 24h deviation — it has no 48h check, and
`calculatePersonalizedHealthRisk` is entirely independent of the
`visitFrequency48h` field. -/
theorem c6_amended :
    (∀ v24 v48 b : ℚ, 0 < b →
      calculateVisitSignal v24 v48 b =
        (if 40 ≤ (b - v24) / b * 100 ∨ v48 < b * 1.8 then ⟨35, true⟩
         else if 20 ≤ (b - v24) / b * 100 then ⟨20, true⟩
         else if 10 ≤ (b - v24) / b * 100 then ⟨10, false⟩
         else ⟨0, false⟩)) ∧
    (∀ dev : ℚ,
      (persVisitSignal dev).score =
        (if dev ≤ -40 then 35 else if dev ≤ -20 then 20
         else if dev ≤ -10 then 10 else 0) ∧
      ((persVisitSignal dev).isActive = true ↔ dev ≤ -20)) ∧
    (∀ (m : HealthMetrics) (pb : AnimalBaseline) (now cd : ℚ) (ds : DriftState)
        (va vb : ℚ),
      calculatePersonalizedHealthRisk { m with visitFrequency48h := va } pb now cd ds =
        calculatePersonalizedHealthRisk { m with visitFrequency48h := vb } pb now cd ds) := by
  refine ⟨?_, ?_, ?_⟩
  · intro v24 v48 b hb
    have hb0 : b ≠ 0 := ne_of_gt hb
    have hXY : (v24 - b) / b * 100 + (b - v24) / b * 100 = 0 := by ring
    simp only [calculateVisitSignal, jsPct, if_neg hb0, JSNum.jle]
    by_cases h40 : 40 ≤ (b - v24) / b * 100
    · have hX : (v24 - b) / b * 100 ≤ -40 := by linarith
      simp [hX, h40]
    · by_cases h48 : v48 < b * 1.8
      · simp [h48]
      · have hX40 : ¬ ((v24 - b) / b * 100 ≤ -40) := fun hc => h40 (by linarith)
        by_cases h20 : 20 ≤ (b - v24) / b * 100
        · have hX20 : (v24 - b) / b * 100 ≤ -20 := by linarith
          simp [hX40, h48, h40, hX20, h20]
        · have hX20 : ¬ ((v24 - b) / b * 100 ≤ -20) := fun hc => h20 (by linarith)
          by_cases h10 : 10 ≤ (b - v24) / b * 100
          · have hX10 : (v24 - b) / b * 100 ≤ -10 := by linarith
            simp [hX40, h48, h40, hX20, h20, hX10, h10]
          · have hX10 : ¬ ((v24 - b) / b * 100 ≤ -10) := fun hc => h10 (by linarith)
            simp [hX40, h48, h40, hX20, h20, hX10, h10]
  · intro dev
    constructor
    · unfold persVisitSignal
      split_ifs <;> rfl
    · exact persVisit_active_iff dev
  · intro m pb now cd ds va vb
    rfl

/-- C6 amended, witness: the herd characterization at visits 10/20 against
baseline 10; the personalized buckets at deviation −50; and 48h-independence
of the personalized engine at 48h counts 5 vs 99. -/
theorem c6_amended_witness :
    (calculateVisitSignal 10 20 10 =
      (if 40 ≤ ((10 : ℚ) - 10) / 10 * 100 ∨ (20 : ℚ) < 10 * 1.8 then ⟨35, true⟩
       else if 20 ≤ ((10 : ℚ) - 10) / 10 * 100 then ⟨20, true⟩
       else if 10 ≤ ((10 : ℚ) - 10) / 10 * 100 then ⟨10, false⟩
       else ⟨0, false⟩)) ∧
    ((persVisitSignal (-50)).score =
      (if (-50 : ℚ) ≤ -40 then 35 else if (-50 : ℚ) ≤ -20 then 20
       else if (-50 : ℚ) ≤ -10 then 10 else 0) ∧
      ((persVisitSignal (-50)).isActive = true ↔ (-50 : ℚ) ≤ -20)) ∧
    (calculatePersonalizedHealthRisk
        { (⟨100, 10, 0, 4⟩ : HealthMetrics) with visitFrequency48h := 5 }
        ⟨4, 10, 100, 1, 1, 0, .STABLE, 20, 20⟩ 0 1 .STABLE =
      calculatePersonalizedHealthRisk
        { (⟨100, 10, 0, 4⟩ : HealthMetrics) with visitFrequency48h := 99 }
        ⟨4, 10, 100, 1, 1, 0, .STABLE, 20, 20⟩ 0 1 .STABLE) :=
  ⟨c6_amended.1 10 20 10 (by norm_num), c6_amended.2.1 (-50),
   c6_amended.2.2 ⟨100, 10, 0, 4⟩ ⟨4, 10, 100, 1, 1, 0, .STABLE, 20, 20⟩ 0 1 .STABLE 5 99⟩

/-- On the STABLE branch the attached explanation is generated from the
assessment itself (with its own `explanation` field cleared, as it was when
`generateHealthExplanation` received it). -/
theorem calcPers_stable_explanation (m : HealthMetrics) (pb : AnimalBaseline)
    (now cd : ℚ) (ds : DriftState) (h : pb.baselineStatus = .STABLE) :
    (calculatePersonalizedHealthRisk m pb now cd ds).explanation =
      some (generateHealthExplanation
        { calculatePersonalizedHealthRisk m pb now cd ds with explanation := none }
        m pb cd ds) := by
  have hr : isBaselineReady pb = true := by simp [isBaselineReady, h]
  simp [calculatePersonalizedHealthRisk, hr]

/-- The impact sum of one (gated, positivity-filtered) contributor entry is
bounded by the corresponding sub-score whenever the gate implies the impact
equals the sub-score. -/
theorem part_sum_le (active : Bool) (i : ℕ) (s det : String) (score : ℕ)
    (himp : active = true → i = score) :
    (((if active = true then
        (if i > 0 then [(⟨s, i, det⟩ : SignalContributor)] else [])
      else []) : List SignalContributor).map SignalContributor.impact).sum ≤ score := by
  cases active
  · simp
  · have hi := himp rfl
    subst hi
    by_cases hpos : i > 0 <;> simp [hpos]

/-! ## Claim C5 -/

/-- C5: for every personalized assessment computed on a STABLE baseline, the
impacts of the contributors listed in its attached explanation sum to at most
the assessment's risk score — contributors exist only for active signals,
where the recomputed impact equals the engine's sub-score, and the inactive
sub-threshold sub-scores can only make the total larger. -/
theorem c5_explanation_impacts_le_score (m : HealthMetrics) (pb : AnimalBaseline)
    (now cd : ℚ) (ds : DriftState) (h : pb.baselineStatus = .STABLE) :
    explanationImpactSum (calculatePersonalizedHealthRisk m pb now cd ds) ≤
      (calculatePersonalizedHealthRisk m pb now cd ds).riskScore := by
  have hexp := calcPers_stable_explanation m pb now cd ds h
  have hsum : explanationImpactSum (calculatePersonalizedHealthRisk m pb now cd ds) =
      ((buildContributorBreakdown
        { calculatePersonalizedHealthRisk m pb now cd ds with explanation := none }
        m pb).map SignalContributor.impact).sum := by
    unfold explanationImpactSum
    rw [hexp]
    rfl
  rw [hsum, calcPers_stable_riskScore m pb now cd ds h]
  have hsig : ({ calculatePersonalizedHealthRisk m pb now cd ds with
      explanation := none } : PersonalizedRiskAssessment).signals =
      ⟨(persActivitySignal (calculateDeviation m.activityLevel pb.avgActivityLevel)).isActive,
       (persSpeedSignal (personalSpeedZ (calculateDeviation m.averageSpeed pb.avgSpeed)
         pb.speedStdDev)).isActive,
       (persVisitSignal (calculateDeviation m.visitFrequency24h
         pb.avgVisitsPerDay)).isActive⟩ :=
    calcPers_stable_signals m pb now cd ds h
  unfold buildContributorBreakdown
  rw [sortImpactDesc_map_sum, hsig]
  simp only [List.map_append, List.sum_append]
  have hA := part_sum_le
    (persActivitySignal (calculateDeviation m.activityLevel pb.avgActivityLevel)).isActive
    (calculateActivityImpact (calculateDeviation m.activityLevel pb.avgActivityLevel))
    "Low Activity"
    ("Activity " ++ toFixed1 |calculateDeviation m.activityLevel pb.avgActivityLevel| ++
      "% below personal baseline")
    (persActivitySignal (calculateDeviation m.activityLevel pb.avgActivityLevel)).score
    (fun hact => activityImpact_eq_score _ ((persActivity_active_iff _).mp hact))
  have hV := part_sum_le
    (persVisitSignal (calculateDeviation m.visitFrequency24h pb.avgVisitsPerDay)).isActive
    (calculateVisitImpact (calculateDeviation m.visitFrequency24h pb.avgVisitsPerDay))
    "Reduced Visits"
    ("Visits " ++ toFixed1 |calculateDeviation m.visitFrequency24h pb.avgVisitsPerDay| ++
      "% below personal baseline")
    (persVisitSignal (calculateDeviation m.visitFrequency24h pb.avgVisitsPerDay)).score
    (fun hact => visitImpact_eq_score _ ((persVisit_active_iff _).mp hact))
  have hSimp : (persSpeedSignal (personalSpeedZ (calculateDeviation m.averageSpeed
      pb.avgSpeed) pb.speedStdDev)).isActive = true →
      calculateSpeedImpact (calculateDeviation m.averageSpeed pb.avgSpeed) pb.speedStdDev =
      (persSpeedSignal (personalSpeedZ (calculateDeviation m.averageSpeed pb.avgSpeed)
        pb.speedStdDev)).score := by
    intro hact
    have hz := (persSpeed_active_iff _).mp hact
    have hsd : 0 < pb.speedStdDev :=
      personalSpeedZ_pos_stdDev _ _ (lt_trans (by norm_num) hz)
    exact speedImpact_eq_score _ _ hsd
  have hS := part_sum_le
    (persSpeedSignal (personalSpeedZ (calculateDeviation m.averageSpeed pb.avgSpeed)
      pb.speedStdDev)).isActive
    (calculateSpeedImpact (calculateDeviation m.averageSpeed pb.avgSpeed) pb.speedStdDev)
    "Slower Speed"
    ("Speed " ++ toFixed1 |calculateDeviation m.averageSpeed pb.avgSpeed| ++
      "% below personal baseline (" ++
      toFixed1 (if pb.speedStdDev > 0 then
        |calculateDeviation m.averageSpeed pb.avgSpeed| / (pb.speedStdDev * 100) else 0) ++
      "σ deviation)")
    (persSpeedSignal (personalSpeedZ (calculateDeviation m.averageSpeed pb.avgSpeed)
      pb.speedStdDev)).score
    hSimp
  omega

/-- C5 witness: the theorem at a concrete STABLE baseline with a 50% activity
drop (one active contributor of impact 40, risk score 40). -/
theorem c5_explanation_impacts_le_score_witness :
    explanationImpactSum (calculatePersonalizedHealthRisk ⟨50, 10, 20, 4⟩
      ⟨4, 10, 100, 1, 1, 0, .STABLE, 20, 20⟩ 0 1 .STABLE) ≤
    (calculatePersonalizedHealthRisk ⟨50, 10, 20, 4⟩
      ⟨4, 10, 100, 1, 1, 0, .STABLE, 20, 20⟩ 0 1 .STABLE).riskScore :=
  c5_explanation_impacts_le_score ⟨50, 10, 20, 4⟩
    ⟨4, 10, 100, 1, 1, 0, .STABLE, 20, 20⟩ 0 1 .STABLE rfl

/-- Status of `addBaselineDataPoint` on a LEARNING baseline: the result is
STABLE exactly when the history holds at least `MIN_DATA_POINTS` entries and
strictly more than 6 days of milliseconds separate `now` from the start date
(the source compares `Math.ceil` of the elapsed days against 7). -/
theorem addBaseline_learning_status (sq : ℚ → ℚ) (b : AnimalBaseline)
    (pts : List HealthMetrics) (now : ℚ) (hl : b.baselineStatus = .LEARNING) :
    (addBaselineDataPoint sq b pts now).baselineStatus = .STABLE ↔
      MIN_DATA_POINTS ≤ pts.length ∧ 6 * msPerDay < |now - b.baselineStartDate| := by
  have hns : ¬ (b.baselineStatus = .STABLE) := by rw [hl]; simp
  have hpos : (0 : ℚ) < msPerDay := by norm_num [msPerDay]
  have hceil : (MIN_DAYS : ℤ) ≤ getDaysBetween b.baselineStartDate now ↔
      6 * msPerDay < |now - b.baselineStartDate| := by
    rw [getDaysBetween, show ((MIN_DAYS : ℤ) = 7) from by norm_num [MIN_DAYS]]
    rw [show ((7 : ℤ) ≤ ⌈|now - b.baselineStartDate| / msPerDay⌉ ↔
      (6 : ℤ) < ⌈|now - b.baselineStartDate| / msPerDay⌉) from by omega]
    rw [Int.lt_ceil]
    push_cast
    rw [lt_div_iff hpos]
  simp only [addBaselineDataPoint]
  rw [if_neg hns]
  by_cases hlen : pts.length < 2
  · rw [if_pos hlen]
    constructor
    · intro hst
      exfalso
      simp [hl] at hst
    · rintro ⟨h20, _⟩
      exfalso
      simp only [MIN_DATA_POINTS] at h20
      omega
  · rw [if_neg hlen]
    by_cases hcond : pts.length ≥ MIN_DATA_POINTS ∧
        getDaysBetween b.baselineStartDate now ≥ (MIN_DAYS : ℤ)
    · rw [if_pos hcond]
      exact ⟨fun _ => ⟨hcond.1, hceil.mp hcond.2⟩, fun _ => rfl⟩
    · rw [if_neg hcond]
      constructor
      · intro hst
        exfalso
        simp [hl] at hst
      · rintro ⟨h20, h6⟩
        exact absurd ⟨h20, hceil.mpr h6⟩ hcond

/-- `addBaselineDataPoint` is the identity on a STABLE baseline. -/
theorem addBaseline_stable_eq (sq : ℚ → ℚ) (b : AnimalBaseline)
    (pts : List HealthMetrics) (now : ℚ) (hs : b.baselineStatus = .STABLE) :
    addBaselineDataPoint sq b pts now = b := by
  simp [addBaselineDataPoint, hs]

/-! ## Claim C2 -/

/-- C2 counterexample: the transition is NOT gated on "at least 7 days
elapsed".  A LEARNING baseline started at time 0, fed a 20-point history at
`now` = 561600000 ms = 6.5 days, becomes STABLE — `Math.ceil(6.5) = 7` passes
the day check — even though fewer than 7 days (604800000 ms) have elapsed,
contradicting "never earlier". -/
theorem c2_counterexample :
    (addBaselineDataPoint (fun q => q)
        ⟨0, 0, 0, 0, 0, 0, .LEARNING, 0, 20⟩
        (List.replicate 20 ⟨100, 10, 20, 4⟩) 561600000).baselineStatus = .STABLE ∧
    (561600000 : ℚ) -
      (⟨0, 0, 0, 0, 0, 0, .LEARNING, 0, 20⟩ : AnimalBaseline).baselineStartDate <
      7 * msPerDay := by
  constructor
  · rw [addBaseline_learning_status (fun q => q) _ _ _ rfl]
    constructor
    · simp [MIN_DATA_POINTS]
    · rw [show |(561600000 : ℚ) -
          (⟨0, 0, 0, 0, 0, 0, .LEARNING, 0, 20⟩ : AnimalBaseline).baselineStartDate| =
          561600000 from by norm_num]
      norm_num [msPerDay]
  · norm_num [msPerDay]

/-- C2 amended: `addBaselineDataPoint` never touches a STABLE baseline (the
statistics are never recomputed and the status never reverts), and from
LEARNING it transitions to STABLE exactly when the history holds at least 20
data points AND strictly more than 6 days have elapsed since the baseline
start date (the source rounds the elapsed time up to whole days with
`Math.ceil` and compares with 7, so the transition can occur up to a day
before 7 full days have passed) — never before that point. -/
theorem c2_amended (sq : ℚ → ℚ) (b : AnimalBaseline) (pts : List HealthMetrics)
    (now : ℚ) :
    (b.baselineStatus = .LEARNING →
      ((addBaselineDataPoint sq b pts now).baselineStatus = .STABLE ↔
        MIN_DATA_POINTS ≤ pts.length ∧ 6 * msPerDay < |now - b.baselineStartDate|)) ∧
    (b.baselineStatus = .STABLE → addBaselineDataPoint sq b pts now = b) :=
  ⟨fun hl => addBaseline_learning_status sq b pts now hl,
   fun hs => addBaseline_stable_eq sq b pts now hs⟩

/-- C2 amended, witness: a LEARNING baseline with 20 points exactly 7 days in
(the iff instance), and a STABLE baseline returned unchanged. -/
theorem c2_amended_witness :
    ((addBaselineDataPoint (fun q => q) ⟨0, 0, 0, 0, 0, 0, .LEARNING, 0, 20⟩
        (List.replicate 20 ⟨100, 10, 20, 4⟩) 604800000).baselineStatus = .STABLE ↔
      MIN_DATA_POINTS ≤ (List.replicate 20 (⟨100, 10, 20, 4⟩ : HealthMetrics)).length ∧
      6 * msPerDay < |604800000 -
        (⟨0, 0, 0, 0, 0, 0, .LEARNING, 0, 20⟩ : AnimalBaseline).baselineStartDate|) ∧
    (addBaselineDataPoint (fun q => q) ⟨0, 0, 0, 0, 0, 0, .STABLE, 20, 20⟩
        (List.replicate 20 ⟨100, 10, 20, 4⟩) 0 = ⟨0, 0, 0, 0, 0, 0, .STABLE, 20, 20⟩) :=
  ⟨(c2_amended (fun q => q) ⟨0, 0, 0, 0, 0, 0, .LEARNING, 0, 20⟩
      (List.replicate 20 ⟨100, 10, 20, 4⟩) 604800000).1 rfl,
   (c2_amended (fun q => q) ⟨0, 0, 0, 0, 0, 0, .STABLE, 20, 20⟩
      (List.replicate 20 ⟨100, 10, 20, 4⟩) 0).2 rfl⟩
